import Mathlib

/-!
Shallow embedding of `src/azure_app_detector.py` (AzureApplicationScanner).

The program probes an Azure AD tenant token endpoint once per candidate
client identifier, classifies each JSON error response by its first
`error_codes` entry, and collects results in submission order through a
thread pool in `main`.  Network behaviour is modelled as data: each probe
either yields a decoded JSON body (the `error_codes` list may be absent,
and `error_description` may be absent) or raises an exception, which the
source converts into a tagged error record.
-/

namespace AzureAppScanner

/-- One entry of `app_info` as produced by the loaders
(`load_client_ids_from_txt` / `load_client_ids_from_csv`). -/
structure Candidate where
  client_id : String
  display_name : String
deriving Repr, DecidableEq, Inhabited

/-- Outcome of `requests.post(...)` followed by `response.json()`:
either a decoded JSON body (we keep the two consumed fields, each
possibly absent), or an exception raised during the request or the
decode, carrying `str(e)`. -/
inductive RequestOutcome where
  | jsonBody (error_codes : Option (List Int)) (error_description : Option String)
  | exn (msg : String)
deriving Repr, DecidableEq

/-- The dictionary returned by `check_app_existence`.  Keys that a branch
does not set are modelled as `none`: the three classified branches set
`error_code` and `error_description` but never `error_message`; the
`except` branch sets `error_message` only. -/
structure ProbeResult where
  client_id : String
  display_name : String
  status : String
  error_code : Option Int
  error_description : Option String
  error_message : Option String
deriving Repr, DecidableEq, Inhabited

/-- `check_app_existence(client_id, tenant, display_name, verbose)` from
`src/azure_app_detector.py` lines 25-83, as a function of the network
response.  `error_json.get('error_codes', [0])[0]` is modelled by
`Option.getD codes [0]` followed by taking the head; on an explicitly
empty list the Python indexing raises `IndexError`, which the enclosing
`except Exception` turns into the error record with
`str(e) = "list index out of range"`. -/
def check_app_existence (client_id : String) (tenant : String)
    (display_name : String) (verbose : Bool)
    (resp : RequestOutcome) : ProbeResult :=
  match resp with
  | .exn e =>
      { client_id := client_id, display_name := display_name,
        status := "error", error_code := none, error_description := none,
        error_message := some e }
  | .jsonBody codes desc =>
      match codes.getD [0] with
      | [] =>
          { client_id := client_id, display_name := display_name,
            status := "error", error_code := none, error_description := none,
            error_message := some "list index out of range" }
      | error_code :: _ =>
          let error_description := desc.getD ""
          if error_code = 7000215 then
            { client_id := client_id, display_name := display_name,
              status := "exists", error_code := some error_code,
              error_description := some error_description,
              error_message := none }
          else if error_code = 700016 then
            { client_id := client_id, display_name := display_name,
              status := "not_found", error_code := some error_code,
              error_description := some error_description,
              error_message := none }
          else
            { client_id := client_id, display_name := display_name,
              status := "unknown", error_code := some error_code,
              error_description := some error_description,
              error_message := none }

/-- The form-encoded token request built at the top of
`check_app_existence` (lines 27-39): URL from the tenant, the candidate
`client_id`, the fixed invalid secret, the fixed scope and grant type. -/
structure TokenRequest where
  url : String
  client_id : String
  client_secret : String
  scope : String
  grant_type : String
deriving Repr, DecidableEq

/-- The request a single invocation of `check_app_existence` sends. -/
def probe_request (client_id : String) (tenant : String) : TokenRequest :=
  { url := "https://login.microsoftonline.com/" ++ tenant ++ "/oauth2/v2.0/token",
    client_id := client_id,
    client_secret := "invalid_secret",
    scope := "https://graph.microsoft.com/.default",
    grant_type := "client_credentials" }

/-- The outbound requests issued by the submission loop of `main`
(lines 156-166): one `requests.post` per entry of `app_info`, in order,
with no deduplication of repeated identifiers. -/
def requests_sent (app_info : List Candidate) (tenant : String) : List TokenRequest :=
  app_info.map (fun c => probe_request c.client_id tenant)

/-- One future as appended to the `futures` list by
`executor.submit(check_app_existence, ...)`: the candidate it was
submitted with, the network response its probe will receive, and the
wall-clock time at which the worker finishes.  `future.result()` blocks
until that time but its value does not depend on it. -/
structure ProbeFuture where
  cand : Candidate
  resp : RequestOutcome
  completion_time : ℚ
deriving DecidableEq

/-- The `futures` list built by the submission loop: the `i`-th entry of
`app_info` is submitted as the `i`-th future, receiving the `i`-th
network response `net i` and completing at time `ct i`. -/
def submit_from (i : Nat) (app_info : List Candidate)
    (net : Nat → RequestOutcome) (ct : Nat → ℚ) : List ProbeFuture :=
  match app_info with
  | [] => []
  | c :: rest => ⟨c, net i, ct i⟩ :: submit_from (i + 1) rest net ct

/-- `futures` after the whole submission loop of `main` has run. -/
def submit_futures (app_info : List Candidate)
    (net : Nat → RequestOutcome) (ct : Nat → ℚ) : List ProbeFuture :=
  submit_from 0 app_info net ct

/-- `future.result()`: the value computed by the worker, i.e.
`check_app_existence` applied to the submitted arguments and the
response that probe received. -/
def future_result (tenant : String) (verbose : Bool) (f : ProbeFuture) : ProbeResult :=
  check_app_existence f.cand.client_id tenant f.cand.display_name verbose f.resp

/-- The collection loop `for future in futures: results.append(future.result())`
(lines 168-171): it walks `futures` in submission order, blocking on each
in turn, so the `results` list is the futures' values in submission order. -/
def collect_results (tenant : String) (verbose : Bool)
    (futures : List ProbeFuture) : List ProbeResult :=
  futures.map (future_result tenant verbose)

/-- The whole submit-then-collect phase of `main`: the `results` list it
leaves behind. -/
def run_probes (app_info : List Candidate) (tenant : String) (verbose : Bool)
    (net : Nat → RequestOutcome) (ct : Nat → ℚ) : List ProbeResult :=
  collect_results tenant verbose (submit_futures app_info net ct)

/-- Outcome of the input-loading `try` block of `main` (lines 124-143):
either some loader raised (file unreadable / undecodable) or it produced
the `app_info` list. -/
inductive LoadOutcome where
  | loadError (msg : String)
  | ok (app_info : List Candidate)
deriving DecidableEq

/-- Observable outcome of one run of `main`: the process exit code, the
outbound requests issued, the `results` and `found_apps` lists, and which
console sections were printed. -/
structure RunResult where
  exit_code : Nat
  requests : List TokenRequest
  results : List ProbeResult
  found_apps : List ProbeResult
  summary_printed : Bool
  save_error_printed : Bool
  found_list_printed : Bool
deriving DecidableEq

/-- `main` (lines 117-194) as a function of the load outcome, the network
behaviour, the completion times, whether `-o` was given, and whether the
output write succeeds.  Unreadable input and empty `app_info` exit with
code 1 before any probe is issued; otherwise all candidates are probed,
the summary is always printed, a write failure only prints
`[ERROR] Unable to save results`, and the found list is printed exactly
when `found_apps` is nonempty.  `main` falls off the end, so the process
exit code is 0 on every such run. -/
def mainRun (load : LoadOutcome) (tenant : String) (verbose : Bool)
    (net : Nat → RequestOutcome) (ct : Nat → ℚ)
    (output_requested : Bool) (write_ok : Bool) : RunResult :=
  match load with
  | .loadError _ =>
      { exit_code := 1, requests := [], results := [], found_apps := [],
        summary_printed := false, save_error_printed := false,
        found_list_printed := false }
  | .ok app_info =>
      if app_info.isEmpty then
        { exit_code := 1, requests := [], results := [], found_apps := [],
          summary_printed := false, save_error_printed := false,
          found_list_printed := false }
      else
        let results := run_probes app_info tenant verbose net ct
        let found_apps := results.filter (fun r => r.status = "exists")
        { exit_code := 0,
          requests := requests_sent app_info tenant,
          results := results,
          found_apps := found_apps,
          summary_printed := true,
          save_error_printed := output_requested && !write_ok,
          found_list_printed := !found_apps.isEmpty }

/-- Submission timestamps of the pacing loop
`for app in app_info: executor.submit(...); time.sleep(args.delay)`
(lines 158-166).  `sleeps` holds the actual duration of each
`time.sleep(args.delay)` call (one per candidate, each at least the
requested delay); the `i`-th submission happens at `t0` plus the sleeps
already performed. -/
def submission_times (t0 : ℚ) (sleeps : List ℚ) : List ℚ :=
  match sleeps with
  | [] => []
  | s :: rest => t0 :: submission_times (t0 + s) rest

/-! ### Helper lemmas -/

/-- Every branch of `check_app_existence` copies the invocation's
`client_id` and `display_name` into the returned record unchanged. -/
theorem check_app_existence_fields (cid tenant dn : String) (verbose : Bool)
    (resp : RequestOutcome) :
    (check_app_existence cid tenant dn verbose resp).client_id = cid ∧
    (check_app_existence cid tenant dn verbose resp).display_name = dn := by
  cases resp with
  | exn e => exact ⟨rfl, rfl⟩
  | jsonBody codes desc =>
    cases codes with
    | none => exact ⟨rfl, rfl⟩
    | some l =>
      cases l with
      | nil => exact ⟨rfl, rfl⟩
      | cons c cs =>
        simp only [check_app_existence, Option.getD]
        split <;> [skip; split] <;> exact ⟨rfl, rfl⟩

theorem submit_from_length (i : Nat) (app_info : List Candidate)
    (net : Nat → RequestOutcome) (ct : Nat → ℚ) :
    (submit_from i app_info net ct).length = app_info.length := by
  induction app_info generalizing i with
  | nil => rfl
  | cons c rest ih => simp [submit_from, ih]

theorem submit_from_map_pair (i : Nat) (app_info : List Candidate)
    (tenant : String) (verbose : Bool)
    (net : Nat → RequestOutcome) (ct : Nat → ℚ) :
    ((submit_from i app_info net ct).map (future_result tenant verbose)).map
        (fun r => (r.client_id, r.display_name)) =
      app_info.map (fun c => (c.client_id, c.display_name)) := by
  induction app_info generalizing i with
  | nil => rfl
  | cons c rest ih =>
    simp only [submit_from, List.map_cons, ih]
    have h := check_app_existence_fields c.client_id tenant c.display_name verbose (net i)
    simp [future_result, h.1, h.2]

theorem submit_from_getD (i j : Nat) (app_info : List Candidate)
    (tenant : String) (verbose : Bool)
    (net : Nat → RequestOutcome) (ct : Nat → ℚ) (hj : j < app_info.length) :
    ((submit_from i app_info net ct).map (future_result tenant verbose)).getD j default =
      check_app_existence (app_info.getD j default).client_id tenant
        (app_info.getD j default).display_name verbose (net (i + j)) := by
  induction app_info generalizing i j with
  | nil => simp at hj
  | cons c rest ih =>
    cases j with
    | zero => simp [submit_from, future_result]
    | succ j =>
      have hj' : j < rest.length := Nat.lt_of_succ_lt_succ hj
      have := ih (i + 1) j hj'
      simpa [submit_from, Nat.add_assoc, Nat.add_comm 1 j] using this

theorem submission_times_length (t0 : ℚ) (sleeps : List ℚ) :
    (submission_times t0 sleeps).length = sleeps.length := by
  induction sleeps generalizing t0 with
  | nil => rfl
  | cons s rest ih => simp [submission_times, ih]

/-- The `i`-th submission happens `(sleeps.take i).sum` after the loop
starts: exactly the sleeps already performed. -/
theorem submission_times_getD (t0 : ℚ) (sleeps : List ℚ) (i : Nat)
    (hi : i < sleeps.length) :
    (submission_times t0 sleeps).getD i 0 = t0 + (sleeps.take i).sum := by
  induction sleeps generalizing t0 i with
  | nil => simp at hi
  | cons s rest ih =>
    cases i with
    | zero => simp [submission_times]
    | succ i =>
      have hi' : i < rest.length := Nat.lt_of_succ_lt_succ hi
      have := ih (t0 + s) i hi'
      simp only [submission_times, List.getD_cons_succ, this,
        List.take_succ_cons, List.sum_cons]
      ring

theorem sum_ge_length_mul (l : List ℚ) (d : ℚ) (h : ∀ s ∈ l, d ≤ s) :
    (l.length : ℚ) * d ≤ l.sum := by
  induction l with
  | nil => simp
  | cons s rest ih =>
    have hs : d ≤ s := h s (List.mem_cons_self s rest)
    have hrest : (rest.length : ℚ) * d ≤ rest.sum :=
      ih (fun x hx => h x (List.mem_cons_of_mem s hx))
    simp only [List.length_cons, List.sum_cons]
    push_cast
    linarith

/-! ### Claim theorems -/

/-- C1: for every probe outcome that reached classification the status is
determined solely by the remote error code: a transport failure yields
`"error"`, an absent `error_codes` field yields the default code 0 and so
`"unknown"`, and a present first code maps to `"exists"` for 7000215,
`"not_found"` for 700016, and `"unknown"` for anything else. -/
theorem classification_by_remote_code (cid tenant dn msg : String)
    (verbose : Bool) (desc : Option String) (c : Int) (codes : List Int) :
    (check_app_existence cid tenant dn verbose (.exn msg)).status = "error" ∧
    (check_app_existence cid tenant dn verbose (.jsonBody none desc)).status
      = "unknown" ∧
    (check_app_existence cid tenant dn verbose
        (.jsonBody (some (c :: codes)) desc)).status =
      (if c = 7000215 then "exists"
       else if c = 700016 then "not_found" else "unknown") := by
  refine ⟨rfl, ?_, ?_⟩
  · simp [check_app_existence]
  · simp only [check_app_existence, Option.getD]
    by_cases h1 : c = 7000215
    · simp [h1]
    · by_cases h2 : c = 700016 <;> simp [h1, h2]

/-- C4 counterexample: on a decoded response whose `error_codes` field is
present but an empty list, `check_app_existence` returns status
`"error"`, not `"unknown"` — indexing `[][0]` raises `IndexError`, which
the blanket `except` converts into the error record. -/
theorem empty_error_codes_status_error :
    (check_app_existence "00000000-0000-0000-0000-000000000000"
        "contoso.onmicrosoft.com" "" false
        (.jsonBody (some []) (some "AADSTS90002"))).status = "error" ∧
    (check_app_existence "00000000-0000-0000-0000-000000000000"
        "contoso.onmicrosoft.com" "" false
        (.jsonBody (some []) (some "AADSTS90002"))).status ≠ "unknown" := by
  exact ⟨rfl, by decide⟩

/-- C4 amended: a response with the `error_codes` field absent classifies
as `"unknown"` (the default `[0]` supplies code 0), but a response with
an explicitly empty `error_codes` list yields status `"error"`, because
the `IndexError` raised by `[0]` on the empty list is caught by the
transport-failure handler. -/
theorem absent_codes_unknown_empty_codes_error (cid tenant dn : String)
    (verbose : Bool) (desc : Option String) :
    (check_app_existence cid tenant dn verbose (.jsonBody none desc)).status
      = "unknown" ∧
    (check_app_existence cid tenant dn verbose (.jsonBody (some []) desc)).status
      = "error" := by
  exact ⟨by simp [check_app_existence], rfl⟩

/-- C5: `check_app_existence` is a total function of its inputs (every
fault is converted into a tagged record, never propagated): an exception
yields status `"error"` carrying `str(e)` as the message and no remote
code, status is `"error"` exactly when the record carries an
`error_message` and no `error_code`, and every record carries exactly one
of `error_code` / `error_message`. -/
theorem probe_returns_tagged_result (cid tenant dn msg : String)
    (verbose : Bool) (resp : RequestOutcome) :
    (check_app_existence cid tenant dn verbose (.exn msg)).status = "error" ∧
    (check_app_existence cid tenant dn verbose (.exn msg)).error_message
      = some msg ∧
    (check_app_existence cid tenant dn verbose (.exn msg)).error_code = none ∧
    ((check_app_existence cid tenant dn verbose resp).status = "error" ↔
      (check_app_existence cid tenant dn verbose resp).error_code = none ∧
      (check_app_existence cid tenant dn verbose resp).error_message.isSome) ∧
    (check_app_existence cid tenant dn verbose resp).error_code.isSome =
      !(check_app_existence cid tenant dn verbose resp).error_message.isSome := by
  refine ⟨rfl, rfl, rfl, ?_, ?_⟩ <;>
  · cases resp with
    | exn e => simp [check_app_existence]
    | jsonBody codes desc =>
      cases codes with
      | none => simp [check_app_existence]
      | some l =>
        cases l with
        | nil => simp [check_app_existence]
        | cons c cs =>
          simp only [check_app_existence, Option.getD]
          by_cases h1 : c = 7000215
          · simp [h1]
          · by_cases h2 : c = 700016 <;> simp [h1, h2]

/-- C10: on every branch the record returned by `check_app_existence`
carries exactly the `client_id` and `display_name` it was invoked with,
unchanged. -/
theorem probe_preserves_identity (cid tenant dn : String) (verbose : Bool)
    (resp : RequestOutcome) :
    (check_app_existence cid tenant dn verbose resp).client_id = cid ∧
    (check_app_existence cid tenant dn verbose resp).display_name = dn :=
  check_app_existence_fields cid tenant dn verbose resp

/-- C2: for every candidate list, every worker count ≥ 1, every network
behaviour and every assignment of completion times, the `results` list of
the dispatch loop lists candidates in exactly the input order — the
collection loop iterates the `futures` list in submission order, so
completion times (quantified here as `ct`) never influence the order. -/
theorem results_preserve_input_order (app_info : List Candidate)
    (tenant : String) (verbose : Bool) (net : Nat → RequestOutcome)
    (ct : Nat → ℚ) (workers : Nat) (hw : 1 ≤ workers) :
    (run_probes app_info tenant verbose net ct).map
        (fun r => (r.client_id, r.display_name)) =
      app_info.map (fun c => (c.client_id, c.display_name)) := by
  unfold run_probes collect_results submit_futures
  exact submit_from_map_pair 0 app_info tenant verbose net ct

/-- C2 witness. -/
theorem results_preserve_input_order_witness :
    (run_probes [⟨"11111111-aaaa", "App One"⟩] "contoso.onmicrosoft.com" false
        (fun _ => .exn "timeout") (fun _ => 0)).map
        (fun r => (r.client_id, r.display_name)) =
      [("11111111-aaaa", "App One")] :=
  results_preserve_input_order [⟨"11111111-aaaa", "App One"⟩]
    "contoso.onmicrosoft.com" false (fun _ => .exn "timeout") (fun _ => 0)
    1 (by decide)

/-- C3: the dispatch loop produces exactly one outcome per candidate —
`results` has the same length as `app_info`, and the `i`-th outcome is
`check_app_existence` applied to the `i`-th candidate and the response of
the `i`-th probe, for every network behaviour including transport
failures. -/
theorem one_outcome_per_candidate (app_info : List Candidate)
    (tenant : String) (verbose : Bool) (net : Nat → RequestOutcome)
    (ct : Nat → ℚ) :
    (run_probes app_info tenant verbose net ct).length = app_info.length ∧
    ∀ i : Nat, i < app_info.length →
      (run_probes app_info tenant verbose net ct).getD i default =
        check_app_existence (app_info.getD i default).client_id tenant
          (app_info.getD i default).display_name verbose (net i) := by
  constructor
  · unfold run_probes collect_results submit_futures
    simp [submit_from_length]
  · intro i hi
    unfold run_probes collect_results submit_futures
    simpa using submit_from_getD 0 i app_info tenant verbose net ct hi

/-- C3 witness. -/
theorem one_outcome_per_candidate_witness :
    (run_probes [⟨"aaa", ""⟩] "contoso.onmicrosoft.com" false
        (fun _ => .exn "timed out") (fun _ => 0)).length = 1 ∧
    (run_probes [⟨"aaa", ""⟩] "contoso.onmicrosoft.com" false
        (fun _ => .exn "timed out") (fun _ => 0)).getD 0 default =
      check_app_existence "aaa" "contoso.onmicrosoft.com" "" false
        (.exn "timed out") :=
  ⟨(one_outcome_per_candidate [⟨"aaa", ""⟩] "contoso.onmicrosoft.com" false
      (fun _ => .exn "timed out") (fun _ => 0)).1,
   (one_outcome_per_candidate [⟨"aaa", ""⟩] "contoso.onmicrosoft.com" false
      (fun _ => .exn "timed out") (fun _ => 0)).2 0 (by decide)⟩

/-- C6: the pacing loop sleeps at least the requested delay `d` after
each submission, so for any two submissions `i ≤ j` the elapsed time
between them is at least `(j - i) * d` — in particular consecutive
submissions are at least `d` apart and the whole submission phase takes
at least `(k - 1) * d` for `k` candidates, regardless of worker count. -/
theorem submission_pacing (d t0 : ℚ) (sleeps : List ℚ) (workers i j : Nat)
    (hw : 1 ≤ workers) (hd : 0 < d) (hs : ∀ s ∈ sleeps, d ≤ s)
    (hij : i ≤ j) (hj : j < sleeps.length) :
    ((j - i : Nat) : ℚ) * d ≤
      (submission_times t0 sleeps).getD j 0 -
        (submission_times t0 sleeps).getD i 0 := by
  have hi : i < sleeps.length := lt_of_le_of_lt hij hj
  rw [submission_times_getD t0 sleeps j hj, submission_times_getD t0 sleeps i hi]
  have hsplit : i + (j - i) = j := by omega
  have htake : sleeps.take j = sleeps.take i ++ (sleeps.drop i).take (j - i) := by
    conv_lhs => rw [← hsplit]
    rw [List.take_add]
  rw [htake, List.sum_append]
  have hlen : ((sleeps.drop i).take (j - i)).length = j - i := by
    rw [List.length_take, List.length_drop]
    omega
  have hmem : ∀ s ∈ (sleeps.drop i).take (j - i), d ≤ s := by
    intro s hsmem
    exact hs s (List.drop_subset _ _ (List.take_subset _ _ hsmem))
  have hsum := sum_ge_length_mul ((sleeps.drop i).take (j - i)) d hmem
  rw [hlen] at hsum
  linarith

/-- C6 witness. -/
theorem submission_pacing_witness :
    ((1 - 0 : Nat) : ℚ) * 1 ≤
      (submission_times 0 [1, 1]).getD 1 0 -
        (submission_times 0 [1, 1]).getD 0 0 :=
  submission_pacing 1 0 [1, 1] 1 0 1 (by decide) (by decide) (by decide)
    (by decide) (by decide)

/-- C7: `main` exits with code 1 when loading raises or yields no
candidates, issuing no requests in either case, and exits with code 0 on
every run with a nonempty candidate list, whatever the network does and
whether or not the output write succeeds. -/
theorem exit_code_policy (msg tenant : String) (verbose : Bool)
    (net : Nat → RequestOutcome) (ct : Nat → ℚ)
    (output_requested write_ok : Bool) (app_info : List Candidate)
    (h : app_info ≠ []) :
    (mainRun (.loadError msg) tenant verbose net ct output_requested
      write_ok).exit_code = 1 ∧
    (mainRun (.loadError msg) tenant verbose net ct output_requested
      write_ok).requests = [] ∧
    (mainRun (.ok []) tenant verbose net ct output_requested
      write_ok).exit_code = 1 ∧
    (mainRun (.ok []) tenant verbose net ct output_requested
      write_ok).requests = [] ∧
    (mainRun (.ok app_info) tenant verbose net ct output_requested
      write_ok).exit_code = 0 := by
  have h' : app_info.isEmpty = false := by
    cases app_info with
    | nil => exact absurd rfl h
    | cons a l => rfl
  refine ⟨rfl, rfl, rfl, rfl, ?_⟩
  simp [mainRun, h']

/-- C7 witness. -/
theorem exit_code_policy_witness :
    (mainRun (.loadError "No such file or directory") "contoso.onmicrosoft.com"
      false (fun _ => .exn "x") (fun _ => 0) false true).exit_code = 1 ∧
    (mainRun (.loadError "No such file or directory") "contoso.onmicrosoft.com"
      false (fun _ => .exn "x") (fun _ => 0) false true).requests = [] ∧
    (mainRun (.ok []) "contoso.onmicrosoft.com"
      false (fun _ => .exn "x") (fun _ => 0) false true).exit_code = 1 ∧
    (mainRun (.ok []) "contoso.onmicrosoft.com"
      false (fun _ => .exn "x") (fun _ => 0) false true).requests = [] ∧
    (mainRun (.ok [⟨"aaa", ""⟩]) "contoso.onmicrosoft.com"
      false (fun _ => .exn "x") (fun _ => 0) false true).exit_code = 0 :=
  exit_code_policy "No such file or directory" "contoso.onmicrosoft.com"
    false (fun _ => .exn "x") (fun _ => 0) false true [⟨"aaa", ""⟩]
    (by decide)

/-- C8: a failure writing the optional output file only sets the
`[ERROR] Unable to save results` warning: the exit code stays 0, the
`results` and `found_apps` lists are exactly those of a run whose write
succeeds, and the console summary and found-application listing are
produced as in that run. -/
theorem output_write_failure_recovered (tenant : String) (verbose : Bool)
    (net : Nat → RequestOutcome) (ct : Nat → ℚ) (app_info : List Candidate)
    (h : app_info ≠ []) :
    (mainRun (.ok app_info) tenant verbose net ct true false).exit_code = 0 ∧
    (mainRun (.ok app_info) tenant verbose net ct true
      false).save_error_printed = true ∧
    (mainRun (.ok app_info) tenant verbose net ct true false).results =
      (mainRun (.ok app_info) tenant verbose net ct true true).results ∧
    (mainRun (.ok app_info) tenant verbose net ct true false).found_apps =
      (mainRun (.ok app_info) tenant verbose net ct true true).found_apps ∧
    (mainRun (.ok app_info) tenant verbose net ct true
      false).summary_printed = true ∧
    (mainRun (.ok app_info) tenant verbose net ct true
      false).found_list_printed =
      (mainRun (.ok app_info) tenant verbose net ct true
        true).found_list_printed := by
  have h' : app_info.isEmpty = false := by
    cases app_info with
    | nil => exact absurd rfl h
    | cons a l => rfl
  simp [mainRun, h']

/-- C8 witness. -/
theorem output_write_failure_recovered_witness :
    (mainRun (.ok [⟨"aaa", ""⟩]) "contoso.onmicrosoft.com" false
      (fun _ => .exn "x") (fun _ => 0) true false).exit_code = 0 ∧
    (mainRun (.ok [⟨"aaa", ""⟩]) "contoso.onmicrosoft.com" false
      (fun _ => .exn "x") (fun _ => 0) true false).save_error_printed = true ∧
    (mainRun (.ok [⟨"aaa", ""⟩]) "contoso.onmicrosoft.com" false
      (fun _ => .exn "x") (fun _ => 0) true false).results =
      (mainRun (.ok [⟨"aaa", ""⟩]) "contoso.onmicrosoft.com" false
        (fun _ => .exn "x") (fun _ => 0) true true).results ∧
    (mainRun (.ok [⟨"aaa", ""⟩]) "contoso.onmicrosoft.com" false
      (fun _ => .exn "x") (fun _ => 0) true false).found_apps =
      (mainRun (.ok [⟨"aaa", ""⟩]) "contoso.onmicrosoft.com" false
        (fun _ => .exn "x") (fun _ => 0) true true).found_apps ∧
    (mainRun (.ok [⟨"aaa", ""⟩]) "contoso.onmicrosoft.com" false
      (fun _ => .exn "x") (fun _ => 0) true false).summary_printed = true ∧
    (mainRun (.ok [⟨"aaa", ""⟩]) "contoso.onmicrosoft.com" false
      (fun _ => .exn "x") (fun _ => 0) true false).found_list_printed =
      (mainRun (.ok [⟨"aaa", ""⟩]) "contoso.onmicrosoft.com" false
        (fun _ => .exn "x") (fun _ => 0) true true).found_list_printed :=
  output_write_failure_recovered "contoso.onmicrosoft.com" false
    (fun _ => .exn "x") (fun _ => 0) [⟨"aaa", ""⟩] (by decide)

/-- C9: two candidates with the same identifier are probed
independently: the submission loop sends one token request per entry (two
requests here), and the dispatch produces two separate outcomes, each
computed from its own probe's response. -/
theorem duplicate_candidates_probed_independently (c1 c2 : Candidate)
    (tenant : String) (verbose : Bool) (net : Nat → RequestOutcome)
    (ct : Nat → ℚ) (h : c1.client_id = c2.client_id) :
    (requests_sent [c1, c2] tenant).length = 2 ∧
    run_probes [c1, c2] tenant verbose net ct =
      [check_app_existence c1.client_id tenant c1.display_name verbose (net 0),
       check_app_existence c2.client_id tenant c2.display_name verbose
         (net 1)] :=
  ⟨rfl, rfl⟩

/-- C9 witness. -/
theorem duplicate_candidates_probed_independently_witness :
    (requests_sent [⟨"aaa", ""⟩, ⟨"aaa", ""⟩] "contoso.onmicrosoft.com").length
      = 2 ∧
    run_probes [⟨"aaa", ""⟩, ⟨"aaa", ""⟩] "contoso.onmicrosoft.com" false
        (fun _ => .exn "x") (fun _ => 0) =
      [check_app_existence "aaa" "contoso.onmicrosoft.com" "" false (.exn "x"),
       check_app_existence "aaa" "contoso.onmicrosoft.com" "" false
         (.exn "x")] :=
  duplicate_candidates_probed_independently ⟨"aaa", ""⟩ ⟨"aaa", ""⟩
    "contoso.onmicrosoft.com" false (fun _ => .exn "x") (fun _ => 0) rfl

end AzureAppScanner
